import Mathlib

/-!
Shallow embedding of `py-backend/app/api_routes/transcription.py`.

The route handler `transcribe_audio` is modelled as a pure function from an
explicit environment (API key from the process environment, the temporary-file
path chosen by the platform, the outcome of the upstream OpenAI call, and
whether deleting the temp file succeeds) to a response plus a trace of
file-system and network effects.

Python semantics that matter here and are reflected in the embedding:
* `fastapi.HTTPException` is a subclass of `Exception` (via Starlette), so an
  `HTTPException` raised inside the outer `try:` of `transcribe_audio` is
  caught by the final `except Exception as e:` clause and re-raised as a 500
  with detail `f"Transcription service error: {str(e)}"`, where `str(e)` of an
  `HTTPException` renders as `f"{status_code}: {detail}"`.
* the `openai` exception classes caught by the earlier clauses
  (`BadRequestError`, `AuthenticationError`, `RateLimitError`,
  `APIConnectionError`) are pairwise disjoint, so the except-chain is a plain
  case split on the category of the upstream failure.
* truthiness: `if not api_key` and `if language and ...` treat `None` and the
  empty string alike.
* `str.lower` on ASCII letters maps `A..Z` to `a..z` (modelled with
  `Char.toLower`, which performs exactly that ASCII shift).
-/

/-- Python str.lower for the ASCII range, applied characterwise. -/
def pyLower (s : String) : String :=
  ⟨s.data.map Char.toLower⟩

/-- Python str.endswith. -/
def pyEndsWith (s suf : String) : Bool :=
  decide (suf.data <:+ s.data)

/-- Whitespace set of Python str.strip. -/
def pyIsSpace (c : Char) : Bool :=
  c == ' ' || c == '\t' || c == '\n' || c == '\r' || c.toNat == 11 || c.toNat == 12

/-- Python str.strip: drop leading and trailing whitespace. -/
def pyStrip (s : String) : String :=
  ⟨((s.data.dropWhile pyIsSpace).reverse.dropWhile pyIsSpace).reverse⟩

/-- Substring containment, for checks that an error detail mentions a phrase. -/
def strContains (hay needle : String) : Bool :=
  decide (needle.data <:+: hay.data)

/-- Truthiness of an optional string in Python: `None` and `""` are falsy. -/
def pyTruthy : Option String → Bool
  | none => false
  | some s => !(s == "")

/-- The f-string rendering of `len(file_content) / (1024 * 1024)` with format
`:.1f`: one decimal digit, rounding half to even on the exact rational. -/
def fmtMB1 (bytes : Nat) : String :=
  let num := bytes * 10
  let den := 1024 * 1024
  let q := num / den
  let r := num % den
  let tenths :=
    if den < 2 * r then q + 1
    else if 2 * r < den then q
    else if q % 2 = 0 then q else q + 1
  toString (tenths / 10) ++ "." ++ toString (tenths % 10)

/-- Source function `get_file_extension` (transcription.py lines 137-158).
`none` models a `None` filename; the empty string is likewise falsy. -/
def get_file_extension (filename : Option String) : String :=
  match filename with
  | none => ".webm"
  | some f =>
    if f = "" then ".webm"
    else
      let filename_lower := pyLower f
      if pyEndsWith filename_lower ".webm" || pyEndsWith filename_lower ".opus" then ".webm"
      else if pyEndsWith filename_lower ".mp3" || pyEndsWith filename_lower ".mpeg" then ".mp3"
      else if pyEndsWith filename_lower ".wav" then ".wav"
      else if pyEndsWith filename_lower ".m4a" then ".m4a"
      else if pyEndsWith filename_lower ".ogg" then ".ogg"
      else if pyEndsWith filename_lower ".flac" then ".flac"
      else ".webm"

/-- Attributes of the upstream (OpenAI Whisper) success response used by the
handler: the transcript text and the optional language / duration attributes
read with `getattr`. Duration is kept abstract as a natural number of
milliseconds; only its presence matters to the handler. -/
structure UpstreamResponse where
  text : String
  language : Option String
  duration : Option Nat
deriving DecidableEq

/-- Outcome of `client.audio.transcriptions.create`, by the exception category
of the `openai` library; `other` covers any exception outside the four caught
classes. Each error carries its `str(e)` message. -/
inductive UpstreamOutcome where
  | ok (resp : UpstreamResponse)
  | badRequest (msg : String)
  | authError (msg : String)
  | rateLimit (msg : String)
  | connError (msg : String)
  | other (msg : String)
deriving DecidableEq

/-- The keyword arguments assembled in `transcription_params`. -/
structure UpstreamParams where
  model : String
  filePath : String
  responseFormat : String
  language : Option String
deriving DecidableEq

/-- File-system and network effects the handler performs. -/
inductive Event where
  | createTemp (path : String)
  | callUpstream (p : UpstreamParams)
  | unlinkAttempt (path : String)
deriving DecidableEq

/-- HTTP result of the route: a full 200 transcript body, the 200
no-speech body `{"text": text, "message": message}`, or an HTTPException
carrying a status code and a detail string. -/
inductive Response where
  | success (text : String) (language : Option String) (duration : Option Nat) (model : String)
  | noSpeech (text : String) (message : String)
  | httpError (status : Nat) (detail : String)
deriving DecidableEq

/-- HTTP status code of a response. -/
def Response.statusCode : Response → Nat
  | .success _ _ _ _ => 200
  | .noSpeech _ _ => 200
  | .httpError s _ => s

/-- Detail string of an HTTPException response (empty for 200 bodies). -/
def Response.detail : Response → String
  | .httpError _ d => d
  | _ => ""

/-- Environment of one request: the `OPENAI_API_KEY` value, the path stem the
platform picks for `NamedTemporaryFile`, the upstream call outcome, and
whether `os.unlink` succeeds. -/
structure Env where
  apiKey : Option String
  tempPath : String
  upstream : UpstreamOutcome
  unlinkOk : Bool
deriving DecidableEq

/-- Result of running the handler: the HTTP response, the effect trace, and
whether the created temp file still exists when the handler returns. -/
structure RunResult where
  response : Response
  events : List Event
  tempFileLeft : Bool
deriving DecidableEq

/-- Exceptions that can escape the outer try block of `transcribe_audio`. -/
inductive PyExc where
  | http (status : Nat) (detail : String)
  | oaBadRequest (msg : String)
  | oaAuth (msg : String)
  | oaRate (msg : String)
  | oaConn (msg : String)
  | generic (msg : String)
deriving DecidableEq

/-- Python `str(e)` of a fastapi `HTTPException`. -/
def httpExcStr (status : Nat) (detail : String) : String :=
  toString status ++ ": " ++ detail

/-- Detail of the oversize rejection (transcription.py line 49). -/
def tooLargeDetail (bytes : Nat) : String :=
  "File too large (" ++ fmtMB1 bytes ++ "MB). Maximum size is 25MB."

/-- Detail raised by `get_openai_client` when the key is unset (line 16). -/
def keyMissingDetail : String :=
  "OpenAI API key not configured. Please set OPENAI_API_KEY environment variable."

/-- Source function `get_openai_client` (lines 12-18): raises an
HTTPException 500 when `OPENAI_API_KEY` is absent or empty. -/
def get_openai_client (apiKey : Option String) : Except PyExc Unit :=
  if pyTruthy apiKey then .ok () else .error (.http 500 keyMissingDetail)

/-- The 25 MB upload bound (line 48). -/
def MAX_BYTES : Nat := 25 * 1024 * 1024

/-- Body of the outer try of `transcribe_audio` (lines 38-110): returns the
response or the escaping exception, the effect trace, and whether the temp
file is left behind. The `finally:` block always attempts the unlink, and its
failure (caught `OSError`) only leaves the file in place. -/
def transcribeTry (env : Env) (contentLen : Nat) (filename : Option String)
    (model : String) (language : Option String) :
    Except PyExc Response × List Event × Bool :=
  if MAX_BYTES < contentLen then
    (.error (.http 400 (tooLargeDetail contentLen)), [], false)
  else if contentLen < 1024 then
    (.error (.http 400 "Audio file too short or empty"), [], false)
  else
    match get_openai_client env.apiKey with
    | .error e => (.error e, [], false)
    | .ok _ =>
      let file_extension := get_file_extension filename
      let temp_file_path := env.tempPath ++ file_extension
      let transcription_params : UpstreamParams :=
        { model := model
          filePath := temp_file_path
          responseFormat := "json"
          language :=
            match language with
            | none => none
            | some l => if l ≠ "" ∧ l ≠ "auto" then some l else none }
      let inner : Except PyExc Response :=
        match env.upstream with
        | .ok resp =>
          let transcribed_text := pyStrip resp.text
          if transcribed_text = "" then
            .ok (.noSpeech "" "No speech detected in audio")
          else
            .ok (.success transcribed_text
              (match resp.language with
               | some l => some l
               | none => language)
              resp.duration model)
        | .badRequest m => .error (.oaBadRequest m)
        | .authError m => .error (.oaAuth m)
        | .rateLimit m => .error (.oaRate m)
        | .connError m => .error (.oaConn m)
        | .other m => .error (.generic m)
      (inner,
       [Event.createTemp temp_file_path,
        Event.callUpstream transcription_params,
        Event.unlinkAttempt temp_file_path],
       !env.unlinkOk)

/-- The except chain of `transcribe_audio` (lines 112-135). An `HTTPException`
raised inside the try block matches none of the `openai` classes and is
caught by `except Exception as e:`, hence re-wrapped as a 500. -/
def transcribeExcept : PyExc → Response
  | .oaBadRequest m => .httpError 400 ("Audio processing failed: " ++ m)
  | .oaAuth _ => .httpError 401 "Invalid OpenAI API key. Please check your configuration."
  | .oaRate _ => .httpError 429 "Rate limit exceeded. Please try again later."
  | .oaConn _ => .httpError 503 "Unable to connect to OpenAI API. Please try again."
  | .http s d => .httpError 500 ("Transcription service error: " ++ httpExcStr s d)
  | .generic m => .httpError 500 ("Transcription service error: " ++ m)

/-- Source route handler `transcribe_audio` (lines 20-135), as a function of
the request environment, the byte length of the uploaded content, the declared
filename, and the `model` and `language` form fields. -/
def transcribe_audio (env : Env) (contentLen : Nat) (filename : Option String)
    (model : String) (language : Option String) : RunResult :=
  match transcribeTry env contentLen filename model language with
  | (.ok r, evs, left) => { response := r, events := evs, tempFileLeft := left }
  | (.error e, evs, left) => { response := transcribeExcept e, events := evs, tempFileLeft := left }

/-- Form-field default of `model` (line 23). -/
def modelDefault : String := "whisper-1"

/-- Form-field default of `language` (line 24). -/
def languageDefault : Option String := some "en"

/-- The route invoked with both optional form fields absent. -/
def transcribe_audio_defaults (env : Env) (contentLen : Nat)
    (filename : Option String) : RunResult :=
  transcribe_audio env contentLen filename modelDefault languageDefault

/-- Environment of the health check: the `OPENAI_API_KEY` value and whether
`openai.OpenAI(api_key=...)` raises (with the `str(e)` message if so). -/
structure HealthEnv where
  apiKey : Option String
  clientInitError : Option String
deriving DecidableEq

/-- Body of the health check response. -/
inductive HealthResponse where
  | healthy (service provider : String) (supportedFormats : List String)
  | unhealthy (error service : String)
deriving DecidableEq

/-- HTTP status of a health check response. -/
def HealthResponse.statusCode : HealthResponse → Nat
  | .healthy _ _ _ => 200
  | .unhealthy _ _ => 503

/-- The static supported-format list (line 195). -/
def supported_formats : List String :=
  [".webm", ".mp3", ".wav", ".m4a", ".ogg", ".flac"]

/-- Source route handler `transcription_health_check` (lines 160-208). It
performs no upstream call, so its effect trace is always empty. -/
def transcription_health_check (env : HealthEnv) : HealthResponse × List Event :=
  if pyTruthy env.apiKey = false then
    (.unhealthy "OpenAI API key not configured" "transcription", [])
  else
    match env.clientInitError with
    | some e =>
      (.unhealthy ("OpenAI client initialization failed: " ++ e) "transcription", [])
    | none =>
      (.healthy "transcription" "OpenAI Whisper" supported_formats, [])

/-- Count of temp-file creations in a trace. -/
def countCreates (evs : List Event) : Nat :=
  (evs.filter fun e => match e with | .createTemp _ => true | _ => false).length

/-- Count of unlink attempts in a trace. -/
def countUnlinks (evs : List Event) : Nat :=
  (evs.filter fun e => match e with | .unlinkAttempt _ => true | _ => false).length

/-- Count of upstream calls in a trace. -/
def countCalls (evs : List Event) : Nat :=
  (evs.filter fun e => match e with | .callUpstream _ => true | _ => false).length

/-- The language hints of the upstream calls in a trace. -/
def upstreamLangHints (evs : List Event) : List (Option String) :=
  evs.filterMap fun e => match e with | .callUpstream p => some p.language | _ => none

/-! Lemmas about the string helpers. -/

theorem char_toLower_idem (c : Char) :
    Char.toLower (Char.toLower c) = Char.toLower c := by
  simp only [Char.toLower]
  by_cases h : c.toNat ≥ 65 ∧ c.toNat ≤ 90
  · rw [if_pos h]
    have hv : (c.toNat + 32).isValidChar := Or.inl (by omega)
    have ht : (Char.ofNat (c.toNat + 32)).toNat = c.toNat + 32 := by
      rw [Char.ofNat, dif_pos hv]; rfl
    rw [ht, if_neg (by omega)]
  · rw [if_neg h, if_neg h]

theorem pyLower_data (s : String) :
    (pyLower s).data = s.data.map Char.toLower := rfl

theorem pyLower_idem (s : String) : pyLower (pyLower s) = pyLower s := by
  show String.mk _ = String.mk _
  apply congrArg
  rw [pyLower_data, List.map_map]
  exact List.map_congr_left fun c _ => char_toLower_idem c

theorem pyLower_eq_empty_iff (s : String) : pyLower s = "" ↔ s = "" := by
  cases s with
  | mk d =>
    constructor
    · intro h
      have hd : List.map Char.toLower d = [] := congrArg String.data h
      rw [List.map_eq_nil_iff] at hd
      exact congrArg String.mk hd
    · intro h
      have hd : d = [] := congrArg String.data h
      subst hd
      rfl

theorem pyEndsWith_iff (s t : String) :
    pyEndsWith s t = true ↔ t.data <:+ s.data := by
  simp [pyEndsWith]

theorem pyEndsWith_lower (s t : String)
    (ht : t.data.map Char.toLower = t.data)
    (h : pyEndsWith s t = true) : pyEndsWith (pyLower s) t = true := by
  rw [pyEndsWith_iff] at h ⊢
  obtain ⟨u, hu⟩ := h
  exact ⟨u.map Char.toLower, by rw [pyLower_data, ← hu, List.map_append, ht]⟩

theorem pyEndsWith_conflict_le (s t u : String)
    (h : pyEndsWith s t = true)
    (hle : t.data.length ≤ u.data.length)
    (hn : ¬ (t.data <:+ u.data)) : pyEndsWith s u = false := by
  rw [pyEndsWith_iff] at h
  rw [pyEndsWith, decide_eq_false_iff_not]
  intro hu
  exact hn (List.suffix_of_suffix_length_le h hu hle)

theorem pyEndsWith_conflict_ge (s t u : String)
    (h : pyEndsWith s t = true)
    (hle : u.data.length ≤ t.data.length)
    (hn : ¬ (u.data <:+ t.data)) : pyEndsWith s u = false := by
  rw [pyEndsWith_iff] at h
  rw [pyEndsWith, decide_eq_false_iff_not]
  intro hu
  exact hn (List.suffix_of_suffix_length_le hu h hle)

theorem ends_nonempty {s t : String} (h : pyEndsWith s t = true)
    (ht : t.data ≠ []) : ¬ s = "" := by
  intro h0
  subst h0
  rw [pyEndsWith_iff] at h
  obtain ⟨u, hu⟩ := h
  have hz : (("" : String).data).length = 0 := rfl
  have hlen := congrArg List.length hu
  rw [List.length_append, hz] at hlen
  have hnil : t.data.length = 0 := by omega
  exact ht (List.eq_nil_of_length_eq_zero hnil)

/-! Branch lemmas for `get_file_extension`. -/

theorem gfe_webm (s : String) (h : pyEndsWith s ".webm" = true) :
    get_file_extension (some s) = ".webm" := by
  have hl : pyEndsWith (pyLower s) ".webm" = true :=
    pyEndsWith_lower _ _ (by decide) h
  have hne : ¬ s = "" := ends_nonempty h (by decide)
  simp [get_file_extension, hne, hl]

theorem gfe_opus (s : String) (h : pyEndsWith s ".opus" = true) :
    get_file_extension (some s) = ".webm" := by
  have hl : pyEndsWith (pyLower s) ".opus" = true :=
    pyEndsWith_lower _ _ (by decide) h
  have hne : ¬ s = "" := ends_nonempty h (by decide)
  simp [get_file_extension, hne, hl]

theorem gfe_mp3 (s : String) (h : pyEndsWith s ".mp3" = true) :
    get_file_extension (some s) = ".mp3" := by
  have hl : pyEndsWith (pyLower s) ".mp3" = true :=
    pyEndsWith_lower _ _ (by decide) h
  have hne : ¬ s = "" := ends_nonempty h (by decide)
  have b1 : pyEndsWith (pyLower s) ".webm" = false :=
    pyEndsWith_conflict_le _ _ _ hl (by decide) (by decide)
  have b2 : pyEndsWith (pyLower s) ".opus" = false :=
    pyEndsWith_conflict_le _ _ _ hl (by decide) (by decide)
  simp [get_file_extension, hne, b1, b2, hl]

theorem gfe_mpeg (s : String) (h : pyEndsWith s ".mpeg" = true) :
    get_file_extension (some s) = ".mp3" := by
  have hl : pyEndsWith (pyLower s) ".mpeg" = true :=
    pyEndsWith_lower _ _ (by decide) h
  have hne : ¬ s = "" := ends_nonempty h (by decide)
  have b1 : pyEndsWith (pyLower s) ".webm" = false :=
    pyEndsWith_conflict_le _ _ _ hl (by decide) (by decide)
  have b2 : pyEndsWith (pyLower s) ".opus" = false :=
    pyEndsWith_conflict_le _ _ _ hl (by decide) (by decide)
  simp [get_file_extension, hne, b1, b2, hl]

theorem gfe_wav (s : String) (h : pyEndsWith s ".wav" = true) :
    get_file_extension (some s) = ".wav" := by
  have hl : pyEndsWith (pyLower s) ".wav" = true :=
    pyEndsWith_lower _ _ (by decide) h
  have hne : ¬ s = "" := ends_nonempty h (by decide)
  have b1 : pyEndsWith (pyLower s) ".webm" = false :=
    pyEndsWith_conflict_le _ _ _ hl (by decide) (by decide)
  have b2 : pyEndsWith (pyLower s) ".opus" = false :=
    pyEndsWith_conflict_le _ _ _ hl (by decide) (by decide)
  have b3 : pyEndsWith (pyLower s) ".mp3" = false :=
    pyEndsWith_conflict_le _ _ _ hl (by decide) (by decide)
  have b4 : pyEndsWith (pyLower s) ".mpeg" = false :=
    pyEndsWith_conflict_le _ _ _ hl (by decide) (by decide)
  simp [get_file_extension, hne, b1, b2, b3, b4, hl]

theorem gfe_m4a (s : String) (h : pyEndsWith s ".m4a" = true) :
    get_file_extension (some s) = ".m4a" := by
  have hl : pyEndsWith (pyLower s) ".m4a" = true :=
    pyEndsWith_lower _ _ (by decide) h
  have hne : ¬ s = "" := ends_nonempty h (by decide)
  have b1 : pyEndsWith (pyLower s) ".webm" = false :=
    pyEndsWith_conflict_le _ _ _ hl (by decide) (by decide)
  have b2 : pyEndsWith (pyLower s) ".opus" = false :=
    pyEndsWith_conflict_le _ _ _ hl (by decide) (by decide)
  have b3 : pyEndsWith (pyLower s) ".mp3" = false :=
    pyEndsWith_conflict_le _ _ _ hl (by decide) (by decide)
  have b4 : pyEndsWith (pyLower s) ".mpeg" = false :=
    pyEndsWith_conflict_le _ _ _ hl (by decide) (by decide)
  have b5 : pyEndsWith (pyLower s) ".wav" = false :=
    pyEndsWith_conflict_le _ _ _ hl (by decide) (by decide)
  simp [get_file_extension, hne, b1, b2, b3, b4, b5, hl]

theorem gfe_ogg (s : String) (h : pyEndsWith s ".ogg" = true) :
    get_file_extension (some s) = ".ogg" := by
  have hl : pyEndsWith (pyLower s) ".ogg" = true :=
    pyEndsWith_lower _ _ (by decide) h
  have hne : ¬ s = "" := ends_nonempty h (by decide)
  have b1 : pyEndsWith (pyLower s) ".webm" = false :=
    pyEndsWith_conflict_le _ _ _ hl (by decide) (by decide)
  have b2 : pyEndsWith (pyLower s) ".opus" = false :=
    pyEndsWith_conflict_le _ _ _ hl (by decide) (by decide)
  have b3 : pyEndsWith (pyLower s) ".mp3" = false :=
    pyEndsWith_conflict_le _ _ _ hl (by decide) (by decide)
  have b4 : pyEndsWith (pyLower s) ".mpeg" = false :=
    pyEndsWith_conflict_le _ _ _ hl (by decide) (by decide)
  have b5 : pyEndsWith (pyLower s) ".wav" = false :=
    pyEndsWith_conflict_le _ _ _ hl (by decide) (by decide)
  have b6 : pyEndsWith (pyLower s) ".m4a" = false :=
    pyEndsWith_conflict_le _ _ _ hl (by decide) (by decide)
  simp [get_file_extension, hne, b1, b2, b3, b4, b5, b6, hl]

theorem gfe_flac (s : String) (h : pyEndsWith s ".flac" = true) :
    get_file_extension (some s) = ".flac" := by
  have hl : pyEndsWith (pyLower s) ".flac" = true :=
    pyEndsWith_lower _ _ (by decide) h
  have hne : ¬ s = "" := ends_nonempty h (by decide)
  have b1 : pyEndsWith (pyLower s) ".webm" = false :=
    pyEndsWith_conflict_le _ _ _ hl (by decide) (by decide)
  have b2 : pyEndsWith (pyLower s) ".opus" = false :=
    pyEndsWith_conflict_le _ _ _ hl (by decide) (by decide)
  have b3 : pyEndsWith (pyLower s) ".mp3" = false :=
    pyEndsWith_conflict_ge _ _ _ hl (by decide) (by decide)
  have b4 : pyEndsWith (pyLower s) ".mpeg" = false :=
    pyEndsWith_conflict_le _ _ _ hl (by decide) (by decide)
  have b5 : pyEndsWith (pyLower s) ".wav" = false :=
    pyEndsWith_conflict_ge _ _ _ hl (by decide) (by decide)
  have b6 : pyEndsWith (pyLower s) ".m4a" = false :=
    pyEndsWith_conflict_ge _ _ _ hl (by decide) (by decide)
  have b7 : pyEndsWith (pyLower s) ".ogg" = false :=
    pyEndsWith_conflict_ge _ _ _ hl (by decide) (by decide)
  simp [get_file_extension, hne, b1, b2, b3, b4, b5, b6, b7, hl]

theorem gfe_default (s : String)
    (h1 : pyEndsWith (pyLower s) ".webm" = false)
    (h2 : pyEndsWith (pyLower s) ".opus" = false)
    (h3 : pyEndsWith (pyLower s) ".mp3" = false)
    (h4 : pyEndsWith (pyLower s) ".mpeg" = false)
    (h5 : pyEndsWith (pyLower s) ".wav" = false)
    (h6 : pyEndsWith (pyLower s) ".m4a" = false)
    (h7 : pyEndsWith (pyLower s) ".ogg" = false)
    (h8 : pyEndsWith (pyLower s) ".flac" = false) :
    get_file_extension (some s) = ".webm" := by
  by_cases hs : s = ""
  · simp [get_file_extension, hs]
  · simp [get_file_extension, hs, h1, h2, h3, h4, h5, h6, h7, h8]

/-- C6: for every filename, `get_file_extension` maps a name ending in `.webm`
or `.opus` to `.webm`, one ending in `.mp3` or `.mpeg` to `.mp3`, one ending
in `.wav` to `.wav`, `.m4a` to `.m4a`, `.ogg` to `.ogg`, `.flac` to `.flac`,
and maps a missing or unrecognized filename to `.webm`. -/
theorem C6_get_file_extension :
    get_file_extension none = ".webm" ∧
    (∀ s : String, pyEndsWith s ".webm" = true → get_file_extension (some s) = ".webm") ∧
    (∀ s : String, pyEndsWith s ".opus" = true → get_file_extension (some s) = ".webm") ∧
    (∀ s : String, pyEndsWith s ".mp3" = true → get_file_extension (some s) = ".mp3") ∧
    (∀ s : String, pyEndsWith s ".mpeg" = true → get_file_extension (some s) = ".mp3") ∧
    (∀ s : String, pyEndsWith s ".wav" = true → get_file_extension (some s) = ".wav") ∧
    (∀ s : String, pyEndsWith s ".m4a" = true → get_file_extension (some s) = ".m4a") ∧
    (∀ s : String, pyEndsWith s ".ogg" = true → get_file_extension (some s) = ".ogg") ∧
    (∀ s : String, pyEndsWith s ".flac" = true → get_file_extension (some s) = ".flac") ∧
    (∀ s : String,
      pyEndsWith (pyLower s) ".webm" = false →
      pyEndsWith (pyLower s) ".opus" = false →
      pyEndsWith (pyLower s) ".mp3" = false →
      pyEndsWith (pyLower s) ".mpeg" = false →
      pyEndsWith (pyLower s) ".wav" = false →
      pyEndsWith (pyLower s) ".m4a" = false →
      pyEndsWith (pyLower s) ".ogg" = false →
      pyEndsWith (pyLower s) ".flac" = false →
      get_file_extension (some s) = ".webm") :=
  ⟨rfl, gfe_webm, gfe_opus, gfe_mp3, gfe_mpeg, gfe_wav, gfe_m4a, gfe_ogg, gfe_flac, gfe_default⟩

/-- Witness for C6 at the concrete filename `recording.ogg`. -/
theorem C6_get_file_extension_witness :
    pyEndsWith "recording.ogg" ".ogg" = true ∧
    get_file_extension (some "recording.ogg") = ".ogg" :=
  ⟨by decide, C6_get_file_extension.2.2.2.2.2.2.2.1 "recording.ogg" (by decide)⟩

/-- C9: `get_file_extension` is case-insensitive on suffixes: every filename
maps to the same extension as its lowercased form (for example `AUDIO.MP3`
maps to `.mp3`), and the returned extension is always one of the six
lowercase known extensions. -/
theorem C9_case_insensitive :
    (∀ s : String, get_file_extension (some s) = get_file_extension (some (pyLower s))) ∧
    get_file_extension (some "AUDIO.MP3") = ".mp3" ∧
    (∀ fn : Option String,
      get_file_extension fn ∈ [".webm", ".mp3", ".wav", ".m4a", ".ogg", ".flac"]) := by
  refine ⟨?_, by decide, ?_⟩
  · intro s
    by_cases hs : s = ""
    · subst hs; rfl
    · have hs2 : ¬ pyLower s = "" := fun h => hs ((pyLower_eq_empty_iff s).mp h)
      simp only [get_file_extension]
      rw [if_neg hs, if_neg hs2, pyLower_idem]
  · intro fn
    match fn with
    | none => decide
    | some f =>
      simp only [get_file_extension]
      split_ifs <;> decide

/-! Reduction lemmas for the request handler. -/

theorem transcribeTry_accepted (env : Env) (len : Nat) (fn : Option String)
    (model : String) (lang : Option String)
    (h1 : ¬ MAX_BYTES < len) (h2 : ¬ len < 1024)
    (hk : pyTruthy env.apiKey = true) :
    transcribeTry env len fn model lang =
      ((match env.upstream with
        | .ok resp =>
          if pyStrip resp.text = "" then
            Except.ok (Response.noSpeech "" "No speech detected in audio")
          else
            Except.ok (Response.success (pyStrip resp.text)
              (match resp.language with | some l => some l | none => lang)
              resp.duration model)
        | .badRequest m => Except.error (PyExc.oaBadRequest m)
        | .authError m => Except.error (PyExc.oaAuth m)
        | .rateLimit m => Except.error (PyExc.oaRate m)
        | .connError m => Except.error (PyExc.oaConn m)
        | .other m => Except.error (PyExc.generic m)),
       [Event.createTemp (env.tempPath ++ get_file_extension fn),
        Event.callUpstream
          { model := model
            filePath := env.tempPath ++ get_file_extension fn
            responseFormat := "json"
            language :=
              match lang with
              | none => none
              | some l => if l ≠ "" ∧ l ≠ "auto" then some l else none },
        Event.unlinkAttempt (env.tempPath ++ get_file_extension fn)],
       !env.unlinkOk) := by
  unfold transcribeTry get_openai_client
  rw [if_neg h1, if_neg h2, if_pos hk]

theorem transcribe_audio_events (env : Env) (len : Nat) (fn : Option String)
    (model : String) (lang : Option String) :
    (transcribe_audio env len fn model lang).events =
      (transcribeTry env len fn model lang).2.1 := by
  unfold transcribe_audio
  rcases h : transcribeTry env len fn model lang with ⟨r, evs, left⟩
  cases r <;> rfl

theorem transcribe_audio_response (env : Env) (len : Nat) (fn : Option String)
    (model : String) (lang : Option String) :
    (transcribe_audio env len fn model lang).response =
      (match (transcribeTry env len fn model lang).1 with
       | .ok r => r
       | .error e => transcribeExcept e) := by
  unfold transcribe_audio
  rcases h : transcribeTry env len fn model lang with ⟨r, evs, left⟩
  cases r <;> rfl

theorem transcribe_audio_left (env : Env) (len : Nat) (fn : Option String)
    (model : String) (lang : Option String) :
    (transcribe_audio env len fn model lang).tempFileLeft =
      (transcribeTry env len fn model lang).2.2 := by
  unfold transcribe_audio
  rcases h : transcribeTry env len fn model lang with ⟨r, evs, left⟩
  cases r <;> rfl

/-- C1: evaluation of the code at a 30 MiB upload. The claim says such an
upload is rejected with HTTP 400; the code instead answers HTTP 500, because
the HTTPException(400) raised by the size check is caught by the final
generic except clause and re-wrapped. The detail still mentions "too large"
and the measured size in megabytes, and no upstream call is made. -/
theorem C1_oversize_http500 :
    (transcribe_audio
      { apiKey := some "sk-test", tempPath := "/tmp/upload",
        upstream := .other "unreached", unlinkOk := true }
      (30 * 1024 * 1024) (some "clip.webm") "whisper-1" (some "en")).response =
      .httpError 500
        "Transcription service error: 400: File too large (30.0MB). Maximum size is 25MB." ∧
    (transcribe_audio
      { apiKey := some "sk-test", tempPath := "/tmp/upload",
        upstream := .other "unreached", unlinkOk := true }
      (30 * 1024 * 1024) (some "clip.webm") "whisper-1" (some "en")).response.statusCode ≠ 400 ∧
    strContains (transcribe_audio
      { apiKey := some "sk-test", tempPath := "/tmp/upload",
        upstream := .other "unreached", unlinkOk := true }
      (30 * 1024 * 1024) (some "clip.webm") "whisper-1" (some "en")).response.detail
      "too large" = true ∧
    strContains (transcribe_audio
      { apiKey := some "sk-test", tempPath := "/tmp/upload",
        upstream := .other "unreached", unlinkOk := true }
      (30 * 1024 * 1024) (some "clip.webm") "whisper-1" (some "en")).response.detail
      "30.0" = true ∧
    (transcribe_audio
      { apiKey := some "sk-test", tempPath := "/tmp/upload",
        upstream := .other "unreached", unlinkOk := true }
      (30 * 1024 * 1024) (some "clip.webm") "whisper-1" (some "en")).events = [] := by
  refine ⟨by decide, by decide, by decide, by decide, by decide⟩

/-- C2: for every accepted upload (size within bounds, credential configured)
and every upstream outcome, exactly one temp file is created, exactly one
unlink is attempted, a successful unlink leaves no file behind, and the
response is independent of whether the unlink succeeds (cleanup failure never
masks the primary result). -/
theorem C2_temp_cleanup (env : Env) (len : Nat) (fn : Option String)
    (model : String) (lang : Option String)
    (h1 : ¬ MAX_BYTES < len) (h2 : ¬ len < 1024)
    (hk : pyTruthy env.apiKey = true) :
    countCreates (transcribe_audio env len fn model lang).events = 1 ∧
    countUnlinks (transcribe_audio env len fn model lang).events = 1 ∧
    (env.unlinkOk = true → (transcribe_audio env len fn model lang).tempFileLeft = false) ∧
    (∀ b : Bool, (transcribe_audio { env with unlinkOk := b } len fn model lang).response =
      (transcribe_audio env len fn model lang).response) := by
  refine ⟨?_, ?_, ?_, ?_⟩
  · rw [transcribe_audio_events, transcribeTry_accepted env len fn model lang h1 h2 hk]
    simp [countCreates, List.filter]
  · rw [transcribe_audio_events, transcribeTry_accepted env len fn model lang h1 h2 hk]
    simp [countUnlinks, List.filter]
  · intro hb
    rw [transcribe_audio_left, transcribeTry_accepted env len fn model lang h1 h2 hk]
    simp [hb]
  · intro b
    cases env with
    | mk k p u ul =>
      rw [transcribe_audio_response, transcribe_audio_response,
          transcribeTry_accepted (Env.mk k p u b) len fn model lang h1 h2 hk,
          transcribeTry_accepted (Env.mk k p u ul) len fn model lang h1 h2 hk]

/-- Witness for C2 at a concrete accepted upload. -/
theorem C2_temp_cleanup_witness :
    pyTruthy (some "sk-test") = true ∧
    countCreates (transcribe_audio
      { apiKey := some "sk-test", tempPath := "/tmp/u",
        upstream := .ok { text := "hi", language := none, duration := none }, unlinkOk := true }
      2048 (some "a.wav") "whisper-1" (some "en")).events = 1 :=
  ⟨by decide,
   (C2_temp_cleanup _ 2048 (some "a.wav") "whisper-1" (some "en")
     (by decide) (by decide) (by decide)).1⟩

/-- C3 counterexample: at a 500-byte upload the claim fails as stated. The
response status is 500 rather than 400 (the generic except clause re-wraps
the HTTPException raised by the size check), and the detail does not contain
the measured size 500; it does mention "too short or empty". -/
theorem C3_undersize_counterexample :
    (transcribe_audio
      { apiKey := some "sk-test", tempPath := "/tmp/upload",
        upstream := .other "unreached", unlinkOk := true }
      500 (some "clip.webm") "whisper-1" (some "en")).response.statusCode ≠ 400 ∧
    strContains (transcribe_audio
      { apiKey := some "sk-test", tempPath := "/tmp/upload",
        upstream := .other "unreached", unlinkOk := true }
      500 (some "clip.webm") "whisper-1" (some "en")).response.detail "500" = false ∧
    strContains (transcribe_audio
      { apiKey := some "sk-test", tempPath := "/tmp/upload",
        upstream := .other "unreached", unlinkOk := true }
      500 (some "clip.webm") "whisper-1" (some "en")).response.detail
      "too short or empty" = true := by
  refine ⟨by decide, by decide, by decide⟩

/-- C3 amended: for every upload smaller than 1024 bytes, the handler makes
no upstream call and fails with a detail that mentions "too short or empty";
the reported status is 500 (the generic except clause re-wraps the intended
400) and the measured size is not part of the message. -/
theorem C3_undersize_500 (env : Env) (len : Nat) (fn : Option String)
    (model : String) (lang : Option String) (h : len < 1024) :
    (transcribe_audio env len fn model lang).response =
      .httpError 500 "Transcription service error: 400: Audio file too short or empty" ∧
    strContains (transcribe_audio env len fn model lang).response.detail
      "too short or empty" = true ∧
    (transcribe_audio env len fn model lang).events = [] := by
  have h1 : ¬ MAX_BYTES < len := by
    simp only [MAX_BYTES]; omega
  have hr : transcribeTry env len fn model lang =
      (.error (.http 400 "Audio file too short or empty"), [], false) := by
    unfold transcribeTry
    rw [if_neg h1, if_pos h]
  refine ⟨?_, ?_, ?_⟩
  · rw [transcribe_audio_response, hr]
    decide
  · rw [transcribe_audio_response, hr]
    decide
  · rw [transcribe_audio_events, hr]

/-- Witness for the amended C3 at a 500-byte upload. -/
theorem C3_undersize_500_witness :
    (500 : Nat) < 1024 ∧
    (transcribe_audio
      { apiKey := none, tempPath := "/tmp/u", upstream := .other "x", unlinkOk := false }
      500 none "whisper-1" none).response =
      .httpError 500 "Transcription service error: 400: Audio file too short or empty" :=
  ⟨by decide,
   (C3_undersize_500 _ 500 none "whisper-1" none (by decide)).1⟩

/-- C4: on an accepted upload, each upstream error category maps to exactly
one typed HTTP failure: authentication errors become 401 with a fixed
"check your configuration" message independent of the raw upstream text,
rate limits become 429, connection failures become 503, rejected request
bodies become 400, and any other error becomes 500 with the original message
included in the detail. -/
theorem C4_upstream_error_mapping (env : Env) (len : Nat) (fn : Option String)
    (model : String) (lang : Option String)
    (h1 : ¬ MAX_BYTES < len) (h2 : ¬ len < 1024)
    (hk : pyTruthy env.apiKey = true) :
    (∀ m, (transcribe_audio { env with upstream := .authError m } len fn model lang).response =
      .httpError 401 "Invalid OpenAI API key. Please check your configuration.") ∧
    (∀ m, (transcribe_audio { env with upstream := .rateLimit m } len fn model lang).response =
      .httpError 429 "Rate limit exceeded. Please try again later.") ∧
    (∀ m, (transcribe_audio { env with upstream := .connError m } len fn model lang).response =
      .httpError 503 "Unable to connect to OpenAI API. Please try again.") ∧
    (∀ m, (transcribe_audio { env with upstream := .badRequest m } len fn model lang).response =
      .httpError 400 ("Audio processing failed: " ++ m)) ∧
    (∀ m, (transcribe_audio { env with upstream := .other m } len fn model lang).response =
      .httpError 500 ("Transcription service error: " ++ m)) := by
  refine ⟨fun m => ?_, fun m => ?_, fun m => ?_, fun m => ?_, fun m => ?_⟩
  · rw [transcribe_audio_response,
        transcribeTry_accepted { env with upstream := .authError m } len fn model lang h1 h2 hk]
    rfl
  · rw [transcribe_audio_response,
        transcribeTry_accepted { env with upstream := .rateLimit m } len fn model lang h1 h2 hk]
    rfl
  · rw [transcribe_audio_response,
        transcribeTry_accepted { env with upstream := .connError m } len fn model lang h1 h2 hk]
    rfl
  · rw [transcribe_audio_response,
        transcribeTry_accepted { env with upstream := .badRequest m } len fn model lang h1 h2 hk]
    rfl
  · rw [transcribe_audio_response,
        transcribeTry_accepted { env with upstream := .other m } len fn model lang h1 h2 hk]
    rfl

/-- Witness for C4 at a concrete authentication error. -/
theorem C4_upstream_error_mapping_witness :
    (transcribe_audio
      { apiKey := some "sk-test", tempPath := "/tmp/u",
        upstream := .authError "bad signature", unlinkOk := true }
      2048 (some "a.wav") "whisper-1" (some "en")).response =
      .httpError 401 "Invalid OpenAI API key. Please check your configuration." :=
  (C4_upstream_error_mapping
    { apiKey := some "sk-test", tempPath := "/tmp/u",
      upstream := .other "ignored", unlinkOk := true }
    2048 (some "a.wav") "whisper-1" (some "en")
    (by decide) (by decide) (by decide)).1 "bad signature"

/-- C5: the language form field defaults to "en"; when the supplied value is
"auto", empty, or absent, no language hint is sent upstream, and any other
non-empty value is forwarded verbatim as the hint of the single upstream
call. -/
theorem C5_language_hint (env : Env) (len : Nat) (fn : Option String) (model : String)
    (h1 : ¬ MAX_BYTES < len) (h2 : ¬ len < 1024)
    (hk : pyTruthy env.apiKey = true) :
    languageDefault = some "en" ∧
    upstreamLangHints (transcribe_audio_defaults env len fn).events = [some "en"] ∧
    upstreamLangHints (transcribe_audio env len fn model (some "auto")).events = [none] ∧
    upstreamLangHints (transcribe_audio env len fn model (some "")).events = [none] ∧
    upstreamLangHints (transcribe_audio env len fn model none).events = [none] ∧
    (∀ l : String, l ≠ "" → l ≠ "auto" →
      upstreamLangHints (transcribe_audio env len fn model (some l)).events = [some l]) := by
  refine ⟨rfl, ?_, ?_, ?_, ?_, ?_⟩
  · show upstreamLangHints (transcribe_audio env len fn modelDefault languageDefault).events = [some "en"]
    rw [transcribe_audio_events, transcribeTry_accepted env len fn modelDefault languageDefault h1 h2 hk]
    simp [upstreamLangHints, languageDefault]
  · rw [transcribe_audio_events, transcribeTry_accepted env len fn model (some "auto") h1 h2 hk]
    simp [upstreamLangHints]
  · rw [transcribe_audio_events, transcribeTry_accepted env len fn model (some "") h1 h2 hk]
    simp [upstreamLangHints]
  · rw [transcribe_audio_events, transcribeTry_accepted env len fn model none h1 h2 hk]
    simp [upstreamLangHints]
  · intro l hl1 hl2
    rw [transcribe_audio_events, transcribeTry_accepted env len fn model (some l) h1 h2 hk]
    simp [upstreamLangHints, hl1, hl2]

/-- Witness for C5: language "auto" yields a single upstream call with no
language hint. -/
theorem C5_language_hint_witness :
    upstreamLangHints (transcribe_audio
      { apiKey := some "sk-test", tempPath := "/tmp/u",
        upstream := .ok { text := "hi", language := none, duration := none }, unlinkOk := true }
      2048 (some "a.wav") "whisper-1" (some "auto")).events = [none] :=
  (C5_language_hint _ 2048 (some "a.wav") "whisper-1"
    (by decide) (by decide) (by decide)).2.2.1

/-- C7: when the upstream call succeeds and the transcript is empty after
trimming whitespace, the handler returns HTTP 200 with empty text and the
message "No speech detected in audio", not an error. -/
theorem C7_no_speech (env : Env) (len : Nat) (fn : Option String) (model : String)
    (lang : Option String) (resp : UpstreamResponse)
    (h1 : ¬ MAX_BYTES < len) (h2 : ¬ len < 1024)
    (hk : pyTruthy env.apiKey = true)
    (hu : env.upstream = .ok resp) (ht : pyStrip resp.text = "") :
    (transcribe_audio env len fn model lang).response =
      .noSpeech "" "No speech detected in audio" ∧
    (transcribe_audio env len fn model lang).response.statusCode = 200 := by
  have hr : (transcribe_audio env len fn model lang).response =
      .noSpeech "" "No speech detected in audio" := by
    rw [transcribe_audio_response, transcribeTry_accepted env len fn model lang h1 h2 hk, hu]
    simp [ht]
  exact ⟨hr, by rw [hr]; rfl⟩

/-- Witness for C7 at a whitespace-only transcript. -/
theorem C7_no_speech_witness :
    (transcribe_audio
      { apiKey := some "sk-test", tempPath := "/tmp/u",
        upstream := .ok { text := "  \n ", language := none, duration := none },
        unlinkOk := true }
      2048 (some "a.wav") "whisper-1" (some "en")).response =
      .noSpeech "" "No speech detected in audio" :=
  (C7_no_speech _ 2048 (some "a.wav") "whisper-1" (some "en")
    { text := "  \n ", language := none, duration := none }
    (by decide) (by decide) (by decide) rfl (by decide)).1

/-- C8: the health check answers 503 unhealthy exactly when the credential is
missing (or empty) or constructing the API client raises, and otherwise 200
healthy with the static supported-format list; its effect trace is always
empty, so it never performs an upstream call. -/
theorem C8_health_check (env : HealthEnv) :
    (transcription_health_check env).2 = [] ∧
    ((transcription_health_check env).1.statusCode = 503 ↔
      (pyTruthy env.apiKey = false ∨ env.clientInitError ≠ none)) ∧
    (pyTruthy env.apiKey = true → env.clientInitError = none →
      transcription_health_check env =
        (.healthy "transcription" "OpenAI Whisper" supported_formats, [])) := by
  cases env with
  | mk k ce =>
    cases hpk : pyTruthy k with
    | false =>
      refine ⟨?_, ?_, ?_⟩ <;>
        simp [transcription_health_check, hpk, HealthResponse.statusCode]
    | true =>
      cases ce with
      | none =>
        refine ⟨?_, ?_, ?_⟩ <;>
          simp [transcription_health_check, hpk, HealthResponse.statusCode]
      | some e =>
        refine ⟨?_, ?_, ?_⟩ <;>
          simp [transcription_health_check, hpk, HealthResponse.statusCode]

/-- Witness for C8: a missing credential yields status 503. -/
theorem C8_health_check_witness :
    (transcription_health_check { apiKey := none, clientInitError := none }).1.statusCode = 503 :=
  (C8_health_check { apiKey := none, clientInitError := none }).2.1.mpr (Or.inl rfl)

/-- C10: on upstream success with a non-empty trimmed transcript, the language
field of the 200 body falls back to the caller-supplied language parameter
(hence "en" under the defaults) when the upstream response carries no
language attribute, the duration field falls back to none when absent
upstream, and the model field echoes the caller-supplied model verbatim. -/
theorem C10_success_metadata (env : Env) (len : Nat) (fn : Option String) (model : String)
    (lang : Option String) (resp : UpstreamResponse)
    (h1 : ¬ MAX_BYTES < len) (h2 : ¬ len < 1024)
    (hk : pyTruthy env.apiKey = true)
    (hu : env.upstream = .ok resp) (ht : ¬ pyStrip resp.text = "") :
    ((transcribe_audio env len fn model lang).response =
      Response.success (pyStrip resp.text)
        (match resp.language with | some l => some l | none => lang) resp.duration model) ∧
    (resp.language = none →
      (transcribe_audio env len fn model lang).response =
        Response.success (pyStrip resp.text) lang resp.duration model) ∧
    (resp.duration = none →
      (transcribe_audio env len fn model lang).response =
        Response.success (pyStrip resp.text)
          (match resp.language with | some l => some l | none => lang) none model) ∧
    (resp.language = none →
      (transcribe_audio_defaults env len fn).response =
        Response.success (pyStrip resp.text) (some "en") resp.duration modelDefault) := by
  have key : ∀ (mdl : String) (lg : Option String),
      (transcribe_audio env len fn mdl lg).response =
        Response.success (pyStrip resp.text)
          (match resp.language with | some l => some l | none => lg)
          resp.duration mdl := by
    intro mdl lg
    rw [transcribe_audio_response, transcribeTry_accepted env len fn mdl lg h1 h2 hk, hu]
    simp [ht]
  refine ⟨key model lang, fun hl => ?_, fun hd => ?_, fun hl => ?_⟩
  · rw [key model lang, hl]
  · rw [key model lang, hd]
  · show (transcribe_audio env len fn modelDefault languageDefault).response = _
    rw [key modelDefault languageDefault, hl]
    rfl

/-- Witness for C10: upstream response without language or duration
attributes, caller language "en". -/
theorem C10_success_metadata_witness :
    (transcribe_audio
      { apiKey := some "sk-test", tempPath := "/tmp/u",
        upstream := .ok { text := " hello ", language := none, duration := none },
        unlinkOk := true }
      2048 (some "a.wav") "whisper-1" (some "en")).response =
      Response.success "hello" (some "en") none "whisper-1" := by
  have h := (C10_success_metadata
    { apiKey := some "sk-test", tempPath := "/tmp/u",
      upstream := .ok { text := " hello ", language := none, duration := none },
      unlinkOk := true }
    2048 (some "a.wav") "whisper-1" (some "en")
    { text := " hello ", language := none, duration := none }
    (by decide) (by decide) (by decide) rfl (by decide)).2.1 rfl
  rw [h]
  decide
